import Mathlib

/-!
Verification of the intent-extraction and relevance-scoring core of the
santas-ai-gift-finder repository.  The Python sources under
`src/backend/nlp_processor.py` and `src/backend/app.py` are shallowly
embedded below: catalog rows become a `Gift` structure with optional
fields for nullable columns, the fuzzy string similarity of
`difflib.SequenceMatcher.ratio` is reproduced over `List Char` with
rational arithmetic, stateful pieces (the ambient clock read, the
database snapshot) become explicit parameters, and code that can raise
`AttributeError` is modelled in the `Except` monad.
-/

/- Batteries marks the rational-number arithmetic irreducible, which blocks
evaluation of the embedded scoring functions inside `decide`; restore the
default reducibility for this file (the kernel is unaffected either way). -/
attribute [local semireducible] Rat.add Rat.mul Rat.sub Rat.inv

/-! ### Basic string helpers (Python `str.lower`, substring test, tokenization) -/

/-- Python `s.lower()` restricted to the ASCII data appearing in this code base. -/
def lowerStr (s : String) : String :=
  String.mk (s.toList.map Char.toLower)

/-- Boolean test that `n` is a leading segment of `h` (helper for substring search). -/
def isPre : List Char → List Char → Bool
  | [], _ => true
  | _ :: _, [] => false
  | a :: as, b :: bs => a == b && isPre as bs

/-- Test `hasSub n h` holds when `n` occurs contiguously inside `h`; this is Python
`n in h` on strings. -/
def hasSub : List Char → List Char → Bool
  | n, [] => n.isEmpty
  | n, h :: t => isPre n (h :: t) || hasSub n t

/-- Python `needle in hay` for strings. -/
def strIn (needle hay : String) : Bool :=
  hasSub needle.toList hay.toList

/-- The whitespace class of Python regular expressions and `str.strip`. -/
def isSpaceChar (c : Char) : Bool :=
  c == ' ' || c == '\t' || c == '\n' || c == '\r' || c == '\x0b' || c == '\x0c'

/-- Python truthiness of a string: blank iff empty or whitespace only
(`not query or not query.strip()`). -/
def isBlank (s : String) : Bool :=
  s.toList.all isSpaceChar

/-- Length of `s.strip()` (used by the `len(data['query'].strip()) > 2` guard). -/
def stripLen (s : String) : Nat :=
  (((s.toList.dropWhile isSpaceChar).reverse.dropWhile isSpaceChar).reverse).length

/-- A word character of the regex class `\w`. -/
def isWordChar (c : Char) : Bool :=
  c.isAlphanum || c == '_'

/-- Accumulator-style splitter behind `tokenize`. -/
def tokensAux : List Char → List Char → List String
  | [], acc => if acc.isEmpty then [] else [String.mk acc.reverse]
  | c :: rest, acc =>
    if isWordChar c then tokensAux rest (c :: acc)
    else if acc.isEmpty then tokensAux rest []
    else String.mk acc.reverse :: tokensAux rest []

/-- Python `re.findall(r'\b\w+\b', s)`: the maximal runs of word characters. -/
def tokenize (s : String) : List String :=
  tokensAux s.toList []

/-- Python `w.isalpha()` for ASCII tokens. -/
def isAlphaStr (w : String) : Bool :=
  !w.toList.isEmpty && w.toList.all Char.isAlpha

/-- NLTK English stop-word list (`stopwords.words('english')`).  Entries that
contain an apostrophe are omitted: the tokenizer above only ever produces
strings over `\w` characters, so such entries can never equal a token and
their omission does not change any membership test performed by the code. -/
def stopWords : List String :=
  ["i", "me", "my", "myself", "we", "our", "ours", "ourselves", "you",
   "your", "yours", "yourself", "yourselves", "he", "him", "his", "himself",
   "she", "her", "hers", "herself", "it", "its", "itself", "they", "them",
   "their", "theirs", "themselves", "what", "which", "who", "whom", "this",
   "that", "these", "those", "am", "is", "are", "was", "were", "be", "been",
   "being", "have", "has", "had", "having", "do", "does", "did", "doing",
   "a", "an", "the", "and", "but", "if", "or", "because", "as", "until",
   "while", "of", "at", "by", "for", "with", "about", "against", "between",
   "into", "through", "during", "before", "after", "above", "below", "to",
   "from", "up", "down", "in", "out", "on", "off", "over", "under", "again",
   "further", "then", "once", "here", "there", "when", "where", "why", "how",
   "all", "any", "both", "each", "few", "more", "most", "other", "some",
   "such", "no", "nor", "not", "only", "own", "same", "so", "than", "too",
   "very", "s", "t", "can", "will", "just", "don", "should", "now", "d",
   "ll", "m", "o", "re", "ve", "y", "ain", "aren", "couldn", "didn",
   "doesn", "hadn", "hasn", "haven", "isn", "ma", "mightn", "mustn",
   "needn", "shan", "shouldn", "wasn", "weren", "won", "wouldn"]

/-! ### `difflib.SequenceMatcher.ratio`

`SequenceMatcher(None, a, b)` with no junk computes the total size of the
recursively chosen longest matching blocks (Ratcliff-Obershelp) and returns
`2*M/T`.  `find_longest_match` returns the maximal-length block; among ties
the one starting earliest in `a`, then earliest in `b`. -/

/-- Length of the common leading segment of two character lists. -/
def cpl : List Char → List Char → Nat
  | a :: as, b :: bs => if a == b then cpl as bs + 1 else 0
  | _, _ => 0

/-- Model of `find_longest_match` over full sequences: the triple `(i, j, k)` of the
longest matching block, ties resolved toward the smallest `i`, then the
smallest `j` (the fold scans candidates in lexicographic order and replaces
the current best only on strict improvement). -/
def longestBlock (a b : List Char) : Nat × Nat × Nat :=
  (List.range (a.length + 1)).foldl
    (fun best i =>
      (List.range (b.length + 1)).foldl
        (fun best j =>
          let k := cpl (a.drop i) (b.drop j)
          if k > best.2.2 then (i, j, k) else best)
        best)
    (0, 0, 0)

/-- Fuelled total matched size of `get_matching_blocks`: take the longest
block and recurse on the pieces to its left and to its right.  Each
recursive call is on strictly smaller combined length, so a fuel of
`a.length + b.length + 1` never runs out. -/
def matchTotalF : Nat → List Char → List Char → Nat
  | 0, _, _ => 0
  | fuel + 1, a, b =>
    let t := longestBlock a b
    let i := t.1
    let j := t.2.1
    let k := t.2.2
    if k = 0 then 0
    else
      k + matchTotalF fuel (a.take i) (b.take j)
        + matchTotalF fuel (a.drop (i + k)) (b.drop (j + k))

/-- Total size of all matching blocks of `SequenceMatcher(None, a, b)`. -/
def matchTotal (a b : List Char) : Nat :=
  matchTotalF (a.length + b.length + 1) a b

/-- Value of `SequenceMatcher(None, a, b).ratio()` as an exact rational: `2*M/T`,
with the documented value `1.0` when both strings are empty. -/
def similarity (a b : String) : ℚ :=
  let la := a.toList
  let lb := b.toList
  if la.length + lb.length = 0 then 1
  else (2 * (matchTotal la lb : ℚ)) / ((la.length + lb.length : ℕ) : ℚ)

/-! ### Data model -/

/-- A named-entity span published by `process_query` (`text`, `label`,
`start_char`, `end_char`). -/
structure Entity where
  text : String
  label : String
  startChar : Nat
  endChar : Nat
deriving DecidableEq, Repr

/-- The four-field polarity tuple of `sia.polarity_scores`. -/
structure Sentiment where
  compound : ℚ
  pos : ℚ
  neu : ℚ
  neg : ℚ
deriving DecidableEq, Repr

/-- A template gift entry of `KNOWLEDGE_BASE` in `nlp_processor.py`. -/
structure KBGift where
  name : String
  category : String
  age_min : Nat
  image : Option String
deriving DecidableEq, Repr

/-- The dictionary returned by `process_query`: the structured Intent. -/
structure Intent where
  age : Option Int
  relationship : Option String
  interests : List String
  entities : List Entity
  sentiment : Sentiment
  matched_interests : List String
  recommendations : List KBGift
deriving DecidableEq, Repr

/-- A row of the `Gift` table (`models.py`).  `description`, `category` and
`image` are nullable columns and therefore `Option`; `name` is declared
`nullable=False`, and `age_min`/`age_max` carry defaults and are always
populated by the seeding code. -/
structure Gift where
  id : Nat
  name : String
  description : Option String
  category : Option String
  age_min : Int
  age_max : Int
  image : Option String
deriving DecidableEq, Repr

/-- Python truthiness of an optional string field (`if gift.description:`):
`None` and the empty string are falsy. -/
def truthyStr : Option String → Bool
  | none => false
  | some s => !(s == "")

/-! ### Knowledge base (`nlp_processor.KNOWLEDGE_BASE`) -/

/-- The `KNOWLEDGE_BASE` dict as an association list in insertion order. -/
def KNOWLEDGE_BASE : List (String × List KBGift) :=
  [("drawing",
    [{ name := "Professional Sketch Pad", category := "art", age_min := 8,
       image := some "https://example.com/sketchpad.jpg" }]),
   ("dinosaurs",
    [{ name := "Dinosaur Fossil Dig Kit", category := "science", age_min := 6,
       image := none }]),
   ("science",
    [{ name := "Crystal Growing Kit", category := "science", age_min := 8,
       image := none }]),
   ("gaming",
    [{ name := "Gaming Headset", category := "gaming", age_min := 12,
       image := none }]),
   ("cooking",
    [{ name := "Electric Mixer", category := "kitchen", age_min := 18,
       image := none }]),
   ("gardening",
    [{ name := "Gardening Tool Set", category := "outdoor", age_min := 18,
       image := none }]),
   ("photography",
    [{ name := "DSLR Camera", category := "tech", age_min := 16,
       image := none }])]

/-- The canonical keys in their fixed declaration (iteration) order. -/
def kbKeys : List String :=
  KNOWLEDGE_BASE.map Prod.fst

/-- Lookup `KNOWLEDGE_BASE[k]`, with `[]` when `k` is not a key (used only under a
membership guard in the code). -/
def kbLookup (k : String) : List KBGift :=
  ((KNOWLEDGE_BASE.find? (fun p => p.1 == k)).map Prod.snd).getD []

/-! ### Fuzzy matching of one interest (`process_query`, matching loop) -/

/-- One iteration of the interest-matching loop: exact key membership wins
immediately; otherwise the first canonical key in declaration order whose
similarity ratio exceeds `0.8` is accepted; no key above the threshold
contributes nothing. -/
def fuzzyOne (t : String) : Option String :=
  if kbKeys.contains t then some t
  else kbKeys.find? (fun k => similarity t k > (4 : ℚ) / 5)

/-- The `matched_interests` list built from the (deduplicated) interests. -/
def matchInterests (ts : List String) : List String :=
  ts.filterMap fuzzyOne

/-- The `recommendations` value: the template gifts of every matched key,
concatenated in matched order, then capped at 5 entries. -/
def recsFromMatched (matched : List String) : List KBGift :=
  (matched.foldr (fun k acc => kbLookup k ++ acc) []).take 5

/-! ### Age extraction (`re.search(r'(\d{1,2})(?:-year-old|\s+years?\s+old|\s+yo)', ...)`) -/

/-- Skip the `\s+` of the pattern and then require `lit` as a prefix,
returning the remainder. -/
def spacesThen (lit : List Char) (cs : List Char) : Option (List Char) :=
  let k := (cs.takeWhile isSpaceChar).length
  if k = 0 then none
  else
    let r := cs.drop k
    if isPre lit r then some (r.drop lit.length) else none

/-- Match `\s+old` as a prefix of `cs`. -/
def spacesOld (cs : List Char) : Bool :=
  (spacesThen "old".toList cs).isSome

/-- Branch `\s+years?\s+old` of the alternation (with the `s?` backtracking of the regex
engine made explicit). -/
def tailYears (cs : List Char) : Bool :=
  match spacesThen "year".toList cs with
  | some r => (isPre ['s'] r && spacesOld (r.drop 1)) || spacesOld r
  | none => false

/-- The suffix alternation `(?:-year-old|\s+years?\s+old|\s+yo)`. -/
def tailMatch (cs : List Char) : Bool :=
  isPre "-year-old".toList cs || tailYears cs ||
    (spacesThen "yo".toList cs).isSome

/-- Attempt of the whole pattern anchored at the current position:
`\d{1,2}` is greedy, so two digits are tried before one. -/
def ageAt : List Char → Option Nat
  | [] => none
  | [d1] =>
    if d1.isDigit && tailMatch [] then some (d1.toNat - 48) else none
  | d1 :: d2 :: rest2 =>
    if d1.isDigit then
      if d2.isDigit then
        if tailMatch rest2 then some ((d1.toNat - 48) * 10 + (d2.toNat - 48))
        else if tailMatch (d2 :: rest2) then some (d1.toNat - 48)
        else none
      else if tailMatch (d2 :: rest2) then some (d1.toNat - 48)
      else none
    else none

/-- Model of `re.search`: scan positions left to right, first successful anchor wins. -/
def extractAgeL : List Char → Option Nat
  | [] => none
  | c :: rest =>
    match ageAt (c :: rest) with
    | some a => some a
    | none => extractAgeL rest

/-- Age extracted from the lowercased query, as published in the Intent. -/
def extractAge (s : String) : Option Int :=
  (extractAgeL s.toList).map Int.ofNat

/-! ### Interests pipeline of `process_query` -/

/-- Degraded-mode interest tokens: `re.findall(r'\b\w+\b', query.lower())`
filtered to alphabetic non-stop-words of length greater than 3. -/
def interestTokens (q : String) : List String :=
  (tokenize (lowerStr q)).filter
    (fun w => isAlphaStr w && !(stopWords.contains w) && w.length > 3)

/-- Order-preserving deduplication
(`[x for x in interests if not (x in seen or seen.add(x))]`). -/
def dedupAux : List String → List String → List String
  | [], _ => []
  | x :: xs, seen =>
    if seen.contains x then dedupAux xs seen else x :: dedupAux xs (x :: seen)

/-- Deduplicate preserving first occurrence. -/
def dedupFirst (l : List String) : List String :=
  dedupAux l []

/-- Count `countIn l w` is `Counter(l)[w]`. -/
def countIn (l : List String) (w : String) : Nat :=
  (l.filter (fun x => x == w)).length

/-- Descending order on counted pairs used to model `Counter.most_common`. -/
def cntGe (a b : String × Nat) : Prop :=
  b.2 ≤ a.2

instance : DecidableRel cntGe := fun a b => inferInstanceAs (Decidable (b.2 ≤ a.2))

/-- Model of `Counter(l).most_common(n)`: pairs in first-insertion order, stably
sorted by count descending (`heapq.nlargest` is stable in this sense),
truncated to `n`, keys only. -/
def mostCommon (l : List String) (n : Nat) : List String :=
  let pairs := (dedupFirst l).map (fun w => (w, countIn l w))
  ((List.insertionSort cntGe pairs).take n).map Prod.fst

/-! ### `process_query` in degraded mode (`nlp is None`)

The spaCy pipeline is the externally consumed linguistic toolkit; when it is
unavailable the code takes the `doc = None` branches embedded here.  The
NLTK sentiment scorer is an external lexicon-based capability and is passed
in as an explicit function, exactly as §6 of the design treats it. -/

/-- The neutral Intent returned for blank input. -/
def neutralIntent : Intent :=
  { age := none, relationship := none, interests := [], entities := [],
    sentiment := { compound := 0, pos := 0, neu := 1, neg := 0 },
    matched_interests := [], recommendations := [] }

/-- Behaviour of `process_query(query)` with the linguistic toolkit absent (`nlp = None`):
age by regex, relationship never assigned (the token scan is inside
`if doc:`), interests by simple tokenization, entities empty. -/
def processQueryDegraded (sia : String → Sentiment) (q : String) : Intent :=
  if isBlank q then neutralIntent
  else
    let ql := lowerStr q
    let raw := interestTokens q
    let dd := dedupFirst raw
    let matched := matchInterests dd
    { age := extractAge ql,
      relationship := none,
      interests := mostCommon dd 5,
      entities := [],
      sentiment := sia q,
      matched_interests := matched,
      recommendations := recsFromMatched matched }

/-! ### Relationship signals

`search` (app.py, lines 252-259) awards 15 for niece/nephew with
`age_min <= 12` and 15 for wife/husband with `age_min >= 18`, and has no
parent clause; `get_recommendations` (lines 533-543) awards 20, 20 and 15
(mom/dad with `age_min >= 30`) together with a reason string. -/

/-- The relationship bonus of the `/api/search` scoring loop. -/
def relBonusSearch (r : String) (ageMin : Int) : ℚ :=
  if (r = "niece" ∨ r = "nephew") ∧ ageMin ≤ 12 then 15
  else if (r = "wife" ∨ r = "husband") ∧ 18 ≤ ageMin then 15
  else 0

/-- The relationship bonus and reason of the `get_recommendations` engine. -/
def relBonusRec (r : String) (ageMin : Int) : Int × List String :=
  if (r = "niece" ∨ r = "nephew") ∧ ageMin ≤ 12 then
    (20, ["suitable for " ++ r])
  else if (r = "wife" ∨ r = "husband") ∧ 18 ≤ ageMin then
    (20, ["romantic gift for " ++ r])
  else if (r = "mom" ∨ r = "dad") ∧ 30 ≤ ageMin then
    (15, ["parent gift for " ++ r])
  else (0, [])

/-! ### Scoring loop of `/api/search` (app.py, lines 222-261)

The only fallible step is `interest.lower() in gift.category.lower()`,
reached whenever the interest list is non-empty: a `None` category then
raises `AttributeError`, which the route turns into a 500 response.  That
partiality is carried in `Except`. -/

/-- Error token standing for Python `AttributeError` on
`None.lower()`. -/
def attrError : String := "AttributeError"

/-- Relevance score of one gift in `search` against the processed query
(`ql` is the lowercased query text). -/
def searchScore (i : Intent) (ql : String) (g : Gift) : Except String ℚ := do
  let s1 : ℚ := if strIn ql (lowerStr g.name) then 100 else 0
  let s2 : ℚ ←
    match i.interests with
    | [] => pure (0 : ℚ)
    | _ :: _ =>
      match g.category with
      | none => throw attrError
      | some c =>
        pure (if i.interests.any (fun t => strIn (lowerStr t) (lowerStr c))
              then (50 : ℚ) else 0)
  let s3 : ℚ := similarity ql (lowerStr g.name) * 30
  let s4 : ℚ :=
    if truthyStr g.description then
      similarity ql (lowerStr (g.description.getD "")) * 20
    else 0
  let s5 : ℚ :=
    match i.age with
    | some a =>
      if a = 0 then 0
      else if g.age_min ≤ a ∧ a ≤ g.age_max then 25
      else if (a - g.age_min).natAbs ≤ 2 ∨ (a - g.age_max).natAbs ≤ 2 then 10
      else 0
    | none => 0
  let s6 : ℚ :=
    match i.relationship with
    | some r => if r = "" then 0 else relBonusSearch r g.age_min
    | none => 0
  pure (s1 + s2 + s3 + s4 + s5 + s6)

/-! ### `/api/search` pipeline (app.py, lines 172-307) -/

/-- The optional filters of the search request body. -/
structure Filters where
  age_min : Option Int
  age_max : Option Int
  price_min : Option ℚ
  price_max : Option ℚ
  categories : List String
deriving DecidableEq, Repr

/-- The mock price `19.99 + (gift.id % 10) * 5`. -/
def mockPrice (g : Gift) : ℚ :=
  1999 / 100 + ((g.id % 10 : ℕ) : ℚ) * 5

/-- The database-level selection: category membership, age-window overlap,
and (for queries longer than 2 characters once stripped) case-insensitive
substring search over name, description and category.  A NULL column never
satisfies its condition. -/
def dbPass (q : String) (f : Filters) (g : Gift) : Bool :=
  (f.categories.isEmpty ||
    (match g.category with
     | some c => f.categories.contains c
     | none => false)) &&
  (match f.age_min with
   | some a => a ≤ g.age_max
   | none => true) &&
  (match f.age_max with
   | some a => g.age_min ≤ a
   | none => true) &&
  (if stripLen q > 2 then
     strIn (lowerStr q) (lowerStr g.name) ||
     (match g.description with
      | some d => strIn (lowerStr q) (lowerStr d)
      | none => false) ||
     (match g.category with
      | some c => strIn (lowerStr q) (lowerStr c)
      | none => false)
   else true)

/-- The rows handed to the scoring loop: filtered table contents truncated
to `db_limit = min(limit * 3, 100)` with `limit = min(rawLim, 50)`. -/
def searchDb (q : String) (f : Filters) (rawLim : Nat) (catalog : List Gift) :
    List Gift :=
  ((catalog.filter (dbPass q f)).take (min (min rawLim 50 * 3) 100))

/-- Score-descending order on scored rows. -/
def scoreGe (a b : Gift × ℚ) : Prop :=
  b.2 ≤ a.2

instance : DecidableRel scoreGe := fun a b => inferInstanceAs (Decidable (b.2 ≤ a.2))

instance : IsTotal (Gift × ℚ) scoreGe := ⟨fun a b => le_total b.2 a.2⟩

instance : IsTrans (Gift × ℚ) scoreGe :=
  ⟨fun _ _ _ h1 h2 => le_trans h2 h1⟩

/-- Model of `scored_gifts.sort(key=lambda x: x[1], reverse=True)`: Python sorting is
stable, and a stable sort by a total key order is uniquely determined, so
stable insertion sort is an exact model. -/
def sortScored (l : List (Gift × ℚ)) : List (Gift × ℚ) :=
  List.insertionSort scoreGe l

/-- The price filter applied after sorting (mock prices). -/
def pricePass (f : Filters) (g : Gift) : Bool :=
  (match f.price_min with
   | some p => !(mockPrice g < p)
   | none => true) &&
  (match f.price_max with
   | some p => !(p < mockPrice g)
   | none => true)

/-- Scored rows of the selected candidates, in catalog order. -/
def searchScored (i : Intent) (q : String) (f : Filters) (rawLim : Nat)
    (catalog : List Gift) : Except String (List (Gift × ℚ)) :=
  (searchDb q f rawLim catalog).mapM
    (fun g => (searchScore i (lowerStr q) g).map (fun s => (g, s)))

/-- The `filtered_gifts` value: the sorted scored rows surviving the price filter
(pre-truncation). -/
def searchFilteredE (i : Intent) (q : String) (f : Filters) (rawLim : Nat)
    (catalog : List Gift) : Except String (List (Gift × ℚ)) :=
  match searchScored i q f rawLim catalog with
  | Except.error e => Except.error e
  | Except.ok sc => Except.ok ((sortScored sc).filter (fun p => pricePass f p.1))

/-- The final recommendation payload is either catalog rows or, when the
truncated list is empty, the knowledge-base fallback of the processed
query. -/
inductive RecOut where
  | fromCatalog (l : List (Gift × ℚ))
  | fromKB (l : List KBGift)
deriving DecidableEq, Repr

/-- The response fields of `/api/search` relevant to ranking:
`recommendations` and `total_results`. -/
structure SearchOut where
  recs : RecOut
  total_results : Nat
deriving DecidableEq, Repr

/-- Packaging of the response fields from the filtered list: truncate to
`min(limit, 50)`, substitute the fallback when empty, and report the
pre-truncation filtered count. -/
def mkSearchOut (i : Intent) (rawLim : Nat) (fl : List (Gift × ℚ)) :
    SearchOut :=
  { recs := if (fl.take (min rawLim 50)).isEmpty then
              RecOut.fromKB i.recommendations
            else RecOut.fromCatalog (fl.take (min rawLim 50)),
    total_results := fl.length }

/-- The ranking portion of the `search` route: select, score, sort,
price-filter, truncate, substitute, report. -/
def searchRank (i : Intent) (q : String) (f : Filters) (rawLim : Nat)
    (catalog : List Gift) : Except String SearchOut :=
  match searchFilteredE i q f rawLim catalog with
  | Except.error e => Except.error e
  | Except.ok fl => Except.ok (mkSearchOut i rawLim fl)

/-! ### `get_recommendations` scoring engine (app.py, lines 492-617)

All weights here are integers.  The month is the value of
`datetime.now().month` read inside the loop; since Lean functions are pure
that ambient read becomes the explicit `month` argument.  The whole gift
table (`Gift.query.all()` and the per-category `filter_by` query) is the
`catalog` argument.  Three statements dereference nullable columns without
a guard and are modelled with `throw`:
`interest.lower() in gift.category.lower()` (line 517),
`gift.category.lower()` under a sentiment branch (lines 548/553), and
`gift.description.lower()` for ORG entities (line 573). -/

/-- Score and reason trace of one gift in `get_recommendations`. -/
def scoreRec (i : Intent) (g : Gift) (month : Nat) (catalog : List Gift) :
    Except String (Int × List String) := do
  let p1 : Int × List String ←
    match i.interests with
    | [] => pure ((0 : Int), ([] : List String))
    | _ :: _ =>
      match g.category with
      | none => throw attrError
      | some c =>
        match i.interests.find?
            (fun t =>
              strIn (lowerStr t) (lowerStr c) ||
              strIn (lowerStr t) (lowerStr g.name) ||
              (truthyStr g.description &&
                strIn (lowerStr t) (lowerStr (g.description.getD "")))) with
        | some t => pure ((30 : Int), ["matches interest: " ++ t])
        | none => pure ((0 : Int), ([] : List String))
  let p2 : Int × List String :=
    match i.age with
    | some a =>
      if a = 0 then (0, [])
      else if g.age_min ≤ a ∧ a ≤ g.age_max then
        (25, ["age appropriate for " ++ toString a])
      else if (a - g.age_min).natAbs ≤ 3 ∨ (a - g.age_max).natAbs ≤ 3 then
        (10, ["near age range for " ++ toString a])
      else (0, [])
    | none => (0, [])
  let p3 : Int × List String :=
    match i.relationship with
    | some r => if r = "" then (0, []) else relBonusRec r g.age_min
    | none => (0, [])
  let p4 : Int × List String ←
    if (1 : ℚ) / 2 < i.sentiment.compound then
      match g.category with
      | none => throw attrError
      | some c =>
        pure (if ["gaming", "art", "science", "outdoor"].any
                  (fun w => strIn w (lowerStr c)) then
                ((15 : Int), ["positive sentiment suggests experiential gift"])
              else ((0 : Int), ([] : List String)))
    else if i.sentiment.compound < -((1 : ℚ) / 2) then
      match g.category with
      | none => throw attrError
      | some c =>
        pure (if ["book", "home", "comfort"].any
                  (fun w => strIn w (lowerStr c)) then
                ((15 : Int), ["sentiment suggests comforting gift"])
              else ((0 : Int), ([] : List String)))
    else pure ((0 : Int), ([] : List String))
  let p5 : Int × List String :=
    if month = 12 ∨ month = 1 then
      if ["christmas", "holiday", "winter", "snow"].any
          (fun w => strIn w (lowerStr g.name)) then
        (10, ["seasonal: winter holidays"])
      else (0, [])
    else if month = 10 ∨ month = 11 then
      if ["pumpkin", "thanksgiving", "autumn"].any
          (fun w => strIn w (lowerStr g.name)) then
        (10, ["seasonal: fall holidays"])
      else (0, [])
    else (0, [])
  let ep : List (Int × List String) ←
    i.entities.mapM
      (fun e =>
        if e.label = "PERSON" ∧ strIn (lowerStr e.text) (lowerStr g.name) then
          pure ((20 : Int), ["matches entity: " ++ e.text])
        else if e.label = "ORG" then
          match g.description with
          | none => throw attrError
          | some d =>
            pure (if strIn (lowerStr e.text) (lowerStr d) then
                    ((15 : Int), ["related to: " ++ e.text])
                  else ((0 : Int), ([] : List String)))
        else pure ((0 : Int), ([] : List String)))
  let p7 : Int :=
    if 1 < (catalog.filter (fun h => h.category == g.category)).length then 5
    else 0
  pure (p1.1 + p2.1 + p3.1 + p4.1 + p5.1 + (ep.map Prod.fst).sum + p7,
        p1.2 ++ p2.2 ++ p3.2 ++ p4.2 ++ p5.2 ++ (ep.map Prod.snd).flatten)

/-- A scored catalog row of the recommendation engine. -/
structure ScoredRec where
  gift : Gift
  score : Int
  reasons : List String
deriving DecidableEq, Repr

/-- Score-descending order on `ScoredRec`. -/
def recGe (a b : ScoredRec) : Prop :=
  b.score ≤ a.score

instance : DecidableRel recGe := fun a b => inferInstanceAs (Decidable (b.score ≤ a.score))

instance : IsTotal ScoredRec recGe := ⟨fun a b => le_total b.score a.score⟩

instance : IsTrans ScoredRec recGe :=
  ⟨fun _ _ _ h1 h2 => le_trans h2 h1⟩

/-- The ranked output of `get_recommendations`: score every table row, keep
only strictly positive scores, sort stably by score descending, truncate to
`top_n`. -/
def recRank (i : Intent) (month : Nat) (catalog : List Gift) (top_n : Nat) :
    Except String (List ScoredRec) :=
  match catalog.mapM
      (fun g => (scoreRec i g month catalog).map
        (fun p => ScoredRec.mk g p.1 p.2)) with
  | Except.error e => Except.error e
  | Except.ok scored =>
    Except.ok ((List.insertionSort recGe
      (scored.filter (fun r => decide (0 < r.score)))).take top_n)

/-- The behaviour observed by the route: the engine body is wrapped in a
blanket `try/except` that logs and returns the empty list on any error. -/
def recRankSafe (i : Intent) (month : Nat) (catalog : List Gift)
    (top_n : Nat) : List ScoredRec :=
  ((recRank i month catalog top_n).toOption).getD []

/-! ### Concrete inputs used by witnesses and counterexamples -/

/-- A neutral sentiment scorer instantiating the external lexicon capability. -/
def siaZero : String → Sentiment :=
  fun _ => { compound := 0, pos := 0, neu := 1, neg := 0 }

/-- A request with no optional filters. -/
def f0 : Filters :=
  { age_min := none, age_max := none, price_min := none, price_max := none,
    categories := [] }

/-- An intent extracted from nothing useful. -/
def i0 : Intent :=
  { age := none, relationship := none, interests := [], entities := [],
    sentiment := { compound := 0, pos := 0, neu := 1, neg := 0 },
    matched_interests := [], recommendations := [] }

/-- A gift sharing no character with the query `"zz"`. -/
def gAAAA : Gift :=
  { id := 0, name := "aaaa", description := none, category := some "bbbb",
    age_min := 0, age_max := 100, image := none }

/-- Catalog row generator for the candidate-count experiment. -/
def g9 (k : Nat) : Gift :=
  { id := k, name := "aaaa", description := none, category := some "cc",
    age_min := 0, age_max := 100, image := none }

/-- A catalog of 31 rows, all passing every declared filter. -/
def catalog31 : List Gift :=
  (List.range 31).map g9

/-- An intent whose only populated field is the relationship `wife`. -/
def iWife : Intent :=
  { age := none, relationship := some "wife", interests := [], entities := [],
    sentiment := { compound := 0, pos := 0, neu := 1, neg := 0 },
    matched_interests := [], recommendations := [] }

/-- An adult-only gift. -/
def gRing : Gift :=
  { id := 1, name := "Ring", description := none, category := some "jewelry",
    age_min := 18, age_max := 100, image := none }

/-- An intent carrying an ORG entity. -/
def i4 : Intent :=
  { age := none, relationship := none, interests := [],
    entities := [{ text := "Acme", label := "ORG", startChar := 0, endChar := 4 }],
    sentiment := { compound := 0, pos := 0, neu := 1, neg := 0 },
    matched_interests := [], recommendations := [] }

/-- A gift whose nullable description column is NULL. -/
def g4 : Gift :=
  { id := 2, name := "Widget", description := none, category := some "toys",
    age_min := 0, age_max := 100, image := none }

/-- An empty intent paired with a seasonal gift name. -/
def iXmas : Intent :=
  { age := none, relationship := none, interests := [], entities := [],
    sentiment := { compound := 0, pos := 0, neu := 1, neg := 0 },
    matched_interests := [], recommendations := [] }

/-- A gift whose name contains a winter-holiday term. -/
def gXmas : Gift :=
  { id := 3, name := "Christmas Ornament", description := none,
    category := some "decor", age_min := 0, age_max := 100, image := none }

/-- Same projections as `iXmas` on every field the scoring engine consults,
different in the unconsulted `pos` sentiment component. -/
def iXmasPos : Intent :=
  { age := none, relationship := none, interests := [], entities := [],
    sentiment := { compound := 0, pos := 1, neu := 0, neg := 0 },
    matched_interests := [], recommendations := [] }

/-- Decidable equality of `Except` results, used to evaluate the embedded
engines at concrete inputs. -/
instance {e a : Type} [DecidableEq e] [DecidableEq a] :
    DecidableEq (Except e a) := fun x y =>
  match x, y with
  | Except.error u, Except.error v =>
    if h : u = v then Decidable.isTrue (by rw [h])
    else Decidable.isFalse (by intro hc; cases hc; exact h rfl)
  | Except.error _, Except.ok _ => Decidable.isFalse (by intro hc; cases hc)
  | Except.ok _, Except.error _ => Decidable.isFalse (by intro hc; cases hc)
  | Except.ok u, Except.ok v =>
    if h : u = v then Decidable.isTrue (by rw [h])
    else Decidable.isFalse (by intro hc; cases hc; exact h rfl)

/-- The Gaming Headset template entry of the knowledge base. -/
def ghHeadset : KBGift :=
  { name := "Gaming Headset", category := "gaming", age_min := 12,
    image := none }

/-! ## Theorems -/

/-! ### Helper lemmas -/

/-- Members of the accumulator-parameterised deduplication never lie in the
seen set. -/
theorem dedupAux_mem_not_seen :
    ∀ (l seen : List String) (y : String), y ∈ dedupAux l seen →
      seen.contains y = false := by
  intro l
  induction l with
  | nil => intro seen y hy; cases hy
  | cons x xs ih =>
    intro seen y hy
    by_cases hx : seen.contains x = true
    · rw [dedupAux, if_pos hx] at hy
      exact ih seen y hy
    · rw [dedupAux, if_neg hx] at hy
      rcases List.mem_cons.mp hy with h | h
      · subst h; exact Bool.eq_false_iff.mpr hx
      · have := ih (x :: seen) y h
        simp only [List.contains_cons, Bool.or_eq_false_iff] at this
        exact this.2

/-- The deduplicated list has no duplicates. -/
theorem dedupAux_nodup :
    ∀ (l seen : List String), (dedupAux l seen).Nodup := by
  intro l
  induction l with
  | nil => intro seen; exact List.nodup_nil
  | cons x xs ih =>
    intro seen
    by_cases hx : seen.contains x = true
    · rw [dedupAux, if_pos hx]; exact ih seen
    · rw [dedupAux, if_neg hx]
      refine List.nodup_cons.mpr ⟨?_, ih (x :: seen)⟩
      intro hmem
      have := dedupAux_mem_not_seen xs (x :: seen) x hmem
      simp at this

/-- Function `dedupFirst` always produces a duplicate-free list. -/
theorem dedupFirst_nodup (l : List String) : (dedupFirst l).Nodup :=
  dedupAux_nodup l []

/-- On a list whose members avoid the seen set and which is already
duplicate-free, the deduplication is the identity. -/
theorem dedupAux_eq_self :
    ∀ (l seen : List String), l.Nodup → (∀ x ∈ l, seen.contains x = false) →
      dedupAux l seen = l := by
  intro l
  induction l with
  | nil => intro seen _ _; rfl
  | cons x xs ih =>
    intro seen hnd hseen
    have hx : seen.contains x = false := hseen x (List.mem_cons_self x xs)
    rw [dedupAux, if_neg (by rw [hx]; exact Bool.false_ne_true)]
    congr 1
    refine ih (x :: seen) (List.nodup_cons.mp hnd).2 ?_
    intro y hy
    simp only [List.contains_cons, Bool.or_eq_false_iff]
    constructor
    · have : y ≠ x := by
        intro he; subst he; exact (List.nodup_cons.mp hnd).1 hy
      simp [beq_eq_false_iff_ne, this]
    · exact hseen y (List.mem_cons_of_mem x hy)

/-- Function `dedupFirst` fixes duplicate-free lists. -/
theorem dedupFirst_eq_self (l : List String) (h : l.Nodup) :
    dedupFirst l = l :=
  dedupAux_eq_self l [] h (fun _ _ => rfl)

/-- Definition `countIn` agrees with `List.count`. -/
theorem countIn_eq_count (l : List String) (w : String) :
    countIn l w = l.count w := by
  simp [countIn, List.count, List.countP_eq_length_filter]

/-- Inserting into a list whose counts are all one is a head insertion. -/
theorem insertionSort_all_one :
    ∀ (l : List (String × Nat)), (∀ p ∈ l, p.2 = 1) →
      List.insertionSort cntGe l = l := by
  intro l
  induction l with
  | nil => intro _; rfl
  | cons x xs ih =>
    intro hall
    have hx : x.2 = 1 := hall x (List.mem_cons_self x xs)
    rw [List.insertionSort, ih (fun p hp => hall p (List.mem_cons_of_mem x hp))]
    cases xs with
    | nil => rfl
    | cons y ys =>
      have hy : y.2 = 1 := hall y (by simp)
      rw [List.orderedInsert, if_pos (by simp [cntGe, hx, hy])]

/-- On a duplicate-free list `Counter.most_common` degenerates to an initial
segment: all counted frequencies equal one, so the stable sort is the
identity and the published order is first-occurrence order. -/
theorem mostCommon_of_nodup (l : List String) (h : l.Nodup) (n : Nat) :
    mostCommon l n = l.take n := by
  have hpairs : ∀ p ∈ l.map (fun w => (w, countIn l w)), p.2 = 1 := by
    intro p hp
    rcases List.mem_map.mp hp with ⟨w, hw, hpw⟩
    subst hpw
    show countIn l w = 1
    rw [countIn_eq_count]
    exact List.count_eq_one_of_mem h hw
  show ((List.insertionSort cntGe
      ((dedupFirst l).map (fun w => (w, countIn l w)))).take n).map Prod.fst =
    l.take n
  rw [dedupFirst_eq_self l h]
  rw [insertionSort_all_one _ hpairs]
  rw [← List.map_take, List.map_map]
  have hid : (Prod.fst ∘ fun w => (w, countIn l w)) = id := rfl
  rw [hid, List.map_id]

/-- Inserting a row whose score equals `s` places it in front of every
equal-scored row already present: the rows skipped on the way in have
strictly larger scores and never pass the filter. -/
theorem orderedInsert_filter_eq_key (x : Gift × ℚ) (s : ℚ) (hx : x.2 = s) :
    ∀ l : List (Gift × ℚ),
      (List.orderedInsert scoreGe x l).filter (fun z => z.2 == s) =
        x :: l.filter (fun z => z.2 == s) := by
  intro l
  induction l with
  | nil => simp [List.orderedInsert, hx]
  | cons y ys ih =>
    by_cases h : scoreGe x y
    · rw [List.orderedInsert, if_pos h]
      simp [hx]
    · rw [List.orderedInsert, if_neg h]
      have hy : (y.2 == s) = false := by
        have hlt : x.2 < y.2 := lt_of_not_le h
        rw [hx] at hlt
        simp [beq_eq_false_iff_ne]
        exact (ne_of_gt hlt)
      rw [List.filter_cons, hy, List.filter_cons]
      by_cases hys : (y.2 == s) = true
      · rw [hy] at hys; cases hys
      · simp only [hy]
        rw [ih]
        simp [List.filter_cons, hy]

/-- Inserting a row whose score differs from `s` leaves the `s`-filtered
residue unchanged. -/
theorem orderedInsert_filter_ne_key (x : Gift × ℚ) (s : ℚ) (hx : ¬ x.2 = s) :
    ∀ l : List (Gift × ℚ),
      (List.orderedInsert scoreGe x l).filter (fun z => z.2 == s) =
        l.filter (fun z => z.2 == s) := by
  intro l
  have hxb : (x.2 == s) = false := by simp [beq_eq_false_iff_ne, hx]
  induction l with
  | nil => simp [List.orderedInsert, hxb]
  | cons y ys ih =>
    by_cases h : scoreGe x y
    · rw [List.orderedInsert, if_pos h]
      simp [List.filter_cons, hxb]
    · rw [List.orderedInsert, if_neg h]
      simp [List.filter_cons, ih]

/-- Stability of the ranking sort, stated through score classes: for every
score value, the rows carrying exactly that score appear in the sorted
output in their original catalog order. -/
theorem sortScored_filter_stable (l : List (Gift × ℚ)) (s : ℚ) :
    (sortScored l).filter (fun z => z.2 == s) = l.filter (fun z => z.2 == s) := by
  induction l with
  | nil => rfl
  | cons x xs ih =>
    show (List.orderedInsert scoreGe x
        (List.insertionSort scoreGe xs)).filter (fun z => z.2 == s) = _
    by_cases hx : x.2 = s
    · rw [orderedInsert_filter_eq_key x s hx]
      rw [List.filter_cons]
      have : (x.2 == s) = true := by simp [hx]
      rw [this]
      exact congrArg (x :: ·) ih
    · rw [orderedInsert_filter_ne_key x s hx]
      rw [List.filter_cons]
      have : (x.2 == s) = false := by simp [beq_eq_false_iff_ne, hx]
      rw [this]
      exact ih

/-! ### Claim C1 -/

/-- C1 (counterexample): the claim asserts the relevance score is a pure
function of (Intent, CatalogItem, injected current date) with no dependence
on an ambient clock read during scoring.  `get_recommendations` has no date
parameter at all: `datetime.now().month` is read inside the scoring loop
(app.py, line 558).  With the Intent and the catalog item held completely
fixed, the score and the reason trace change with that ambient read: in
December the gift named `Christmas Ornament` scores 10 with a seasonal
reason, in June it scores 0 with no reasons. -/
theorem C1_counterexample :
    scoreRec iXmas gXmas 12 [gXmas] =
      Except.ok (10, ["seasonal: winter holidays"]) ∧
    scoreRec iXmas gXmas 6 [gXmas] = Except.ok (0, []) := by
  constructor <;> decide

/-- C1 (amended): once the month obtained from the ambient
`datetime.now()` read is made an explicit input, the score and reason
trace form a pure deterministic function of (Intent, CatalogItem, clock
month, catalog snapshot); moreover the Intent enters only through its
interests, age, relationship, sentiment compound and entities, so any two
intents agreeing on those projections (and equal months) produce identical
results. -/
theorem C1_score_deterministic (i j : Intent) (g : Gift) (m m2 : Nat)
    (cat : List Gift)
    (h1 : i.interests = j.interests) (h2 : i.age = j.age)
    (h3 : i.relationship = j.relationship)
    (h4 : i.sentiment.compound = j.sentiment.compound)
    (h5 : i.entities = j.entities) (h6 : m = m2) :
    scoreRec i g m cat = scoreRec j g m2 cat := by
  subst h6
  unfold scoreRec
  rw [h1, h2, h3, h4, h5]

/-- C1 witness: two concretely different intents (they differ in the `pos`
sentiment component, which the engine never reads) with the same clock
month evaluate identically. -/
theorem C1_score_deterministic_witness :
    scoreRec iXmas gXmas 12 [gXmas] = scoreRec iXmasPos gXmas 12 [gXmas] :=
  C1_score_deterministic iXmas iXmasPos gXmas 12 12 [gXmas]
    rfl rfl rfl rfl rfl rfl

/-! ### Claim C4 -/

/-- C4: the claim (and §4.3 of the design) says scoring never fails and a
missing field merely skips its predicates.  The code guards a `None`
description at app.py lines 240 and 519 but forgets the guard at line 573:
for an intent carrying an ORG entity and a catalog row whose nullable
`description` column is NULL, `entity['text'].lower() in
gift.description.lower()` raises `AttributeError`.  The blanket
`try/except` of `get_recommendations` then swallows the error and returns
the empty recommendation list for the whole call. -/
theorem C4_missing_description_raises :
    scoreRec i4 g4 6 [g4] = Except.error attrError ∧
    recRankSafe i4 6 [g4] 8 = [] := by
  constructor <;> decide

/-! ### Claim C5 -/

/-- C5 (counterexample): the claim says that in degraded mode a query
containing the token `wife` yields relationship `wife` via a left-to-right
token scan.  The token scan of nlp_processor.py lines 99-104 sits inside
`if doc:`, which is skipped when the toolkit is absent, so the degraded
extractor leaves the relationship `None` even though the token is
present. -/
theorem C5_counterexample :
    (processQueryDegraded siaZero "gift for my wife").relationship = none ∧
    (tokenize (lowerStr "gift for my wife")).contains "wife" = true :=
  ⟨rfl, rfl⟩

/-- C5 (amended): in degraded mode the extractor still returns a valid
Intent with age via the regex, interests via simple tokenization and
entities empty, but the relationship is always `None` — the vocabulary
scan never runs without the toolkit. -/
theorem C5_degraded_mode (sia : String → Sentiment) (q : String) :
    (processQueryDegraded sia q).relationship = none ∧
    (processQueryDegraded sia q).entities = [] ∧
    (processQueryDegraded sia q).age =
      (if isBlank q then none else extractAge (lowerStr q)) ∧
    (processQueryDegraded sia q).interests =
      (if isBlank q then []
       else mostCommon (dedupFirst (interestTokens q)) 5) := by
  unfold processQueryDegraded neutralIntent
  by_cases h : isBlank q <;> simp [h]

/-! ### Claim C7 -/

/-- C7 (counterexample): the claim states a single relationship signal of
weight 15 for all three vocabulary groups.  In `get_recommendations` the
spousal branch awards 20, not 15 (app.py line 539), and in `search` the
parent branch does not exist at all (lines 252-259), so `mom` with
`age_min = 35` adds nothing there. -/
theorem C7_counterexample :
    scoreRec iWife gRing 6 [gRing] =
      Except.ok (20, ["romantic gift for wife"]) ∧
    relBonusSearch "mom" 35 = 0 := by
  constructor <;> decide

/-- C7 (amended): the relationship signal is 15 in `search` exactly for
(niece/nephew with `ageMin ≤ 12`) or (wife/husband with `ageMin ≥ 18`) and
is otherwise 0 there (no parent clause); in `get_recommendations` those two
groups award 20 and the parent group (mom/dad with `ageMin ≥ 30`) awards
15. -/
theorem C7_relationship_weights (r : String) (a : Int) :
    (relBonusSearch r a = 15 ↔
      (((r = "niece" ∨ r = "nephew") ∧ a ≤ 12) ∨
       ((r = "wife" ∨ r = "husband") ∧ 18 ≤ a))) ∧
    (relBonusSearch r a = 15 ∨ relBonusSearch r a = 0) ∧
    ((relBonusRec r a).1 = 20 ↔
      (((r = "niece" ∨ r = "nephew") ∧ a ≤ 12) ∨
       ((r = "wife" ∨ r = "husband") ∧ 18 ≤ a))) ∧
    ((relBonusRec r a).1 = 15 ↔ ((r = "mom" ∨ r = "dad") ∧ 30 ≤ a)) := by
  unfold relBonusSearch relBonusRec
  split_ifs with h1 h2 h3 <;>
    refine ⟨?_, ?_, ?_, ?_⟩ <;>
    simp_all <;>
    try tauto
  all_goals
    intro hmd
    first
    | (rcases h1.1 with h | h <;> rw [h] at hmd <;>
        rcases hmd with hx | hx <;> exact absurd hx (by decide))
    | (rcases h2.1 with h | h <;> rw [h] at hmd <;>
        rcases hmd with hx | hx <;> exact absurd hx (by decide))

/-! ### Claim C10 -/

set_option maxRecDepth 40000 in
/-- C10: two distinct extracted interests can resolve to the same canonical
key, whose template gifts are then appended once per matching interest: for
the query `gaming gamine`, `gaming` matches exactly and `gamine` fuzzily
(ratio 5/6 against `gaming`, below threshold against every earlier key), so
the fallback list repeats the Gaming Headset entry. -/
theorem C10_duplicate_fallback :
    (processQueryDegraded siaZero "gaming gamine").matched_interests =
      ["gaming", "gaming"] ∧
    (processQueryDegraded siaZero "gaming gamine").recommendations =
      [ghHeadset, ghHeadset] ∧
    ¬ (processQueryDegraded siaZero "gaming gamine").recommendations.Nodup := by
  refine ⟨by decide, by decide, ?_⟩
  intro h
  rw [show (processQueryDegraded siaZero "gaming gamine").recommendations =
    [ghHeadset, ghHeadset] from by decide] at h
  exact (by decide : ¬ ([ghHeadset, ghHeadset] : List KBGift).Nodup) h

/-! ### Claim C3 -/

/-- C3 (counterexample): the claim says the published interests are ordered
by token frequency in the text, descending.  For `chess robot robot` the
token `robot` occurs twice and `chess` once, so frequency order would put
`robot` first; the code deduplicates before counting
(nlp_processor.py lines 122-124 before line 161), every count is 1, and the
published order is `[chess, robot]`. -/
theorem C3_counterexample :
    (processQueryDegraded siaZero "chess robot robot").interests =
      ["chess", "robot"] ∧
    countIn (interestTokens "chess robot robot") "robot" = 2 ∧
    countIn (interestTokens "chess robot robot") "chess" = 1 := by
  refine ⟨by decide, by decide, by decide⟩

/-- C3 (amended): the published interests list has length at most 5 and no
duplicates, but it is the first five distinct filtered tokens in
first-occurrence order: deduplication precedes the frequency count, so all
counted frequencies equal one and the frequency ranking is vacuous. -/
theorem C3_interests_shape (raw : List String) (sia : String → Sentiment)
    (q : String) :
    mostCommon (dedupFirst raw) 5 = (dedupFirst raw).take 5 ∧
    (processQueryDegraded sia q).interests.length ≤ 5 ∧
    (processQueryDegraded sia q).interests.Nodup ∧
    (processQueryDegraded sia q).interests =
      (if isBlank q then [] else (dedupFirst (interestTokens q)).take 5) := by
  have key : ∀ l : List String, mostCommon (dedupFirst l) 5 =
      (dedupFirst l).take 5 :=
    fun l => mostCommon_of_nodup (dedupFirst l) (dedupFirst_nodup l) 5
  have hint : (processQueryDegraded sia q).interests =
      (if isBlank q then [] else (dedupFirst (interestTokens q)).take 5) := by
    unfold processQueryDegraded neutralIntent
    by_cases h : isBlank q
    · simp [h]
    · simp [h, key]
  refine ⟨key raw, ?_, ?_, hint⟩
  · rw [hint]
    by_cases h : isBlank q
    · simp [h]
    · simp only [h, if_false]
      exact List.length_take_le 5 _
  · rw [hint]
    by_cases h : isBlank q
    · simp [h]
    · simp only [h, if_false]
      exact ((dedupFirst_nodup (interestTokens q)).sublist
        (List.take_sublist 5 _))

/-! ### Claim C6 -/

/-- C6 (counterexample): the claim says the fallback recommendation list is
ordered in knowledge-base declaration order.  The knowledge base declares
`drawing` before `gaming`, yet the query `gaming drawing` produces the
Gaming Headset entry before the Sketch Pad entry: the list follows the
order in which the interests were extracted, not the declaration order. -/
theorem C6_counterexample :
    (processQueryDegraded siaZero "gaming drawing").recommendations =
      [ghHeadset,
       { name := "Professional Sketch Pad", category := "art", age_min := 8,
         image := some "https://example.com/sketchpad.jpg" }] ∧
    kbKeys = ["drawing", "dinosaurs", "science", "gaming", "cooking",
              "gardening", "photography"] := by
  refine ⟨by decide, by decide⟩

/-- C6 (amended): an interest that is an exact knowledge-base key maps to
itself immediately; otherwise the first canonical key in the fixed
declaration order whose similarity ratio exceeds 0.8 is accepted and an
interest with no key above the threshold contributes nothing; the fallback
list caps at 5 entries — but its order is the matched-interest order (each
matched key contributing its template gifts in sequence), not the
knowledge-base declaration order. -/
theorem C6_fuzzy_matcher (t : String) (ts : List String)
    (ht : kbKeys.contains t = true) :
    fuzzyOne t = some t ∧
    (∀ u, kbKeys.contains u = false →
      fuzzyOne u = kbKeys.find? (fun k => similarity u k > (4 : ℚ) / 5)) ∧
    matchInterests ts = ts.filterMap fuzzyOne ∧
    (recsFromMatched ts).length ≤ 5 ∧
    recsFromMatched ts = (ts.foldr (fun k acc => kbLookup k ++ acc) []).take 5 ∧
    (∀ sia q, (processQueryDegraded sia q).recommendations =
      recsFromMatched (processQueryDegraded sia q).matched_interests) := by
  refine ⟨?_, ?_, rfl, ?_, rfl, ?_⟩
  · unfold fuzzyOne
    rw [if_pos ht]
  · intro u hu
    unfold fuzzyOne
    rw [if_neg (by rw [hu]; exact Bool.false_ne_true)]
  · exact List.length_take_le 5 _
  · intro sia q
    unfold processQueryDegraded neutralIntent
    by_cases h : isBlank q <;> simp [h, recsFromMatched]

/-- C6 witness: `science` is an exact key; the generic facts instantiate at
the interest list `[gaming, drawing]`. -/
theorem C6_fuzzy_matcher_witness :
    fuzzyOne "science" = some "science" ∧
    (∀ u, kbKeys.contains u = false →
      fuzzyOne u = kbKeys.find? (fun k => similarity u k > (4 : ℚ) / 5)) ∧
    matchInterests ["gaming", "drawing"] =
      ["gaming", "drawing"].filterMap fuzzyOne ∧
    (recsFromMatched ["gaming", "drawing"]).length ≤ 5 ∧
    recsFromMatched ["gaming", "drawing"] =
      (["gaming", "drawing"].foldr (fun k acc => kbLookup k ++ acc) []).take 5 ∧
    (∀ sia q, (processQueryDegraded sia q).recommendations =
      recsFromMatched (processQueryDegraded sia q).matched_interests) :=
  C6_fuzzy_matcher "science" ["gaming", "drawing"] (by decide)

/-! ### Claim C8 -/

/-- C8: ranking is deterministic and stable.  Two calls of the embedded
ranking with identical arguments are the same value; the scoring sort is a
stable sort by score descending (Python `list.sort` with `reverse=True`):
for every score value the rows carrying that score keep their original
catalog order (the filtered-residue characterisation of stability), the
output is sorted score-descending, and it is a permutation of its input.
The later price filter and truncation only remove elements, preserving
relative order, so equal-scored survivors stay in catalog order in the
final output as well. -/
theorem C8_rank_deterministic_stable :
    (∀ i q f lim cat, searchRank i q f lim cat = searchRank i q f lim cat) ∧
    (∀ (l : List (Gift × ℚ)) (s : ℚ),
      (sortScored l).filter (fun z => z.2 == s) =
        l.filter (fun z => z.2 == s)) ∧
    (∀ l, (sortScored l).Sorted scoreGe) ∧
    (∀ l, (sortScored l).Perm l) := by
  refine ⟨fun _ _ _ _ _ => rfl, sortScored_filter_stable, ?_, ?_⟩
  · intro l
    exact List.sorted_insertionSort scoreGe l
  · intro l
    exact List.perm_insertionSort scoreGe l

/-- Elimination form of a successful `searchRank` call: the output record
is determined by the filtered list. -/
theorem searchRank_ok_elim (i : Intent) (q : String) (f : Filters)
    (lim : Nat) (cat : List Gift) (fl : List (Gift × ℚ)) (out : SearchOut)
    (h2 : searchFilteredE i q f lim cat = Except.ok fl)
    (h3 : searchRank i q f lim cat = Except.ok out) :
    out = mkSearchOut i lim fl := by
  unfold searchRank at h3
  rw [h2] at h3
  have h3b : Except.ok (mkSearchOut i lim fl) = Except.ok out := h3
  injection h3b with h4
  exact h4.symm

/-! ### Claim C2 -/

/-- C2 (counterexample): the claim says an item with no satisfied predicate
scores 0 and is excluded from the positive result set, and the output
equals the knowledge-base fallback exactly when no item scores above 0.  In
`search` the zero-scored row is appended unconditionally (app.py line 261)
and the fallback triggers only when the truncated list is empty (line 294):
for the query `zz` (too short for the text filter) and a gift sharing no
character with it, the gift scores exactly 0, appears in the ranked output,
and the fallback is not consulted although nothing scored above 0. -/
theorem C2_counterexample :
    searchScore (processQueryDegraded siaZero "zz") (lowerStr "zz") gAAAA =
      Except.ok 0 ∧
    searchRank (processQueryDegraded siaZero "zz") "zz" f0 10 [gAAAA] =
      Except.ok { recs := RecOut.fromCatalog [(gAAAA, 0)],
                  total_results := 1 } := by
  refine ⟨by decide, by decide⟩

/-- C2 (amended): the zero-score exclusion holds in `get_recommendations`
(only rows with score strictly above 0 enter the result set), while in
`search` zero-scored rows are kept and the knowledge-base fallback (which
always has at most 5 entries) is substituted exactly when the truncated
post-filter list is empty — a condition neither implied by nor implying
that no row scored above 0. -/
theorem C2_positive_set_and_fallback (i : Intent) (m : Nat) (cat : List Gift)
    (n : Nat) (l : List ScoredRec) (q : String) (f : Filters) (lim : Nat)
    (fl : List (Gift × ℚ)) (out : SearchOut)
    (h1 : recRank i m cat n = Except.ok l)
    (h2 : searchFilteredE i q f lim cat = Except.ok fl)
    (h3 : searchRank i q f lim cat = Except.ok out) :
    (∀ r ∈ l, 0 < r.score) ∧
    (out.recs = RecOut.fromKB i.recommendations ↔
      (fl.take (min lim 50)).isEmpty = true) ∧
    (∀ (sia : String → Sentiment) (q2 : String),
      ((processQueryDegraded sia q2).recommendations).length ≤ 5) := by
  refine ⟨?_, ?_, ?_⟩
  · unfold recRank at h1
    cases hsc : cat.mapM
        (fun g => (scoreRec i g m cat).map
          (fun p => ScoredRec.mk g p.1 p.2)) with
    | error e => rw [hsc] at h1; cases h1
    | ok scored =>
      rw [hsc] at h1
      have hl : l = (List.insertionSort recGe
          (scored.filter (fun r => decide (0 < r.score)))).take n := by
        cases h1; rfl
      subst hl
      intro r hr
      have hr1 : r ∈ List.insertionSort recGe
          (scored.filter (fun r => decide (0 < r.score))) :=
        List.take_subset n _ hr
      have hr2 : r ∈ scored.filter (fun r => decide (0 < r.score)) :=
        (List.mem_insertionSort recGe).mp hr1
      exact of_decide_eq_true (List.mem_filter.mp hr2).2
  · have hout := searchRank_ok_elim i q f lim cat fl out h2 h3
    subst hout
    unfold mkSearchOut
    by_cases he : (fl.take (min lim 50)).isEmpty = true
    · simp [he]
    · simp only [Bool.not_eq_true] at he
      simp [he]
  · intro sia q2
    unfold processQueryDegraded neutralIntent
    by_cases h : isBlank q2
    · simp [h]
    · simp only [h, if_false]
      exact List.length_take_le 5 _

/-- C2 witness: both engines run (successfully) on the empty catalog; the
fallback branch is taken with the empty fallback list. -/
theorem C2_positive_set_and_fallback_witness :
    (∀ r ∈ ([] : List ScoredRec), 0 < r.score) ∧
    ((SearchOut.mk (RecOut.fromKB []) 0).recs =
        RecOut.fromKB i0.recommendations ↔
      ((([] : List (Gift × ℚ))).take (min 10 50)).isEmpty = true) ∧
    (∀ (sia : String → Sentiment) (q2 : String),
      ((processQueryDegraded sia q2).recommendations).length ≤ 5) :=
  C2_positive_set_and_fallback i0 6 [] 5 [] "q" f0 10 []
    (SearchOut.mk (RecOut.fromKB []) 0) rfl rfl rfl

/-! ### Claim C9 -/

set_option maxRecDepth 100000 in
set_option maxHeartbeats 1000000 in
/-- C9 (counterexample): the claim says `rank` scores every candidate of
the supplied catalog and reports `totalCandidates` as the post-filter,
pre-truncation candidate count.  The code hands at most
`db_limit = min(limit * 3, 100)` rows to the scoring loop (app.py,
lines 213-214): with 31 catalog rows all passing every declared filter and
the default limit 10, only 30 rows are scored and `total_results` is
reported as 30, not 31. -/
theorem C9_counterexample :
    catalog31.length = 31 ∧
    (catalog31.filter (dbPass "zz" f0)).length = 31 ∧
    (searchRank i0 "zz" f0 10 catalog31).map SearchOut.total_results =
      Except.ok 30 := by
  refine ⟨by decide, by decide, by decide⟩

/-- C9 (amended): the scoring loop receives only the first
`min(3 * min(limit, 50), 100)` rows surviving the database-level
category/age/text filters; the sorted price-filtered list is truncated to
`min(limit, 50)` (default limit 10) and `total_results` reports the
post-price-filter, pre-truncation count of that database-limited scored
subset, not of the whole catalog. -/
theorem C9_truncation_and_total (i : Intent) (q : String) (f : Filters)
    (rawLim : Nat) (cat : List Gift) (fl : List (Gift × ℚ)) (out : SearchOut)
    (h2 : searchFilteredE i q f rawLim cat = Except.ok fl)
    (h3 : searchRank i q f rawLim cat = Except.ok out) :
    out.total_results = fl.length ∧
    ((fl.take (min rawLim 50)).isEmpty = false →
      out.recs = RecOut.fromCatalog (fl.take (min rawLim 50))) ∧
    searchDb q f rawLim cat =
      (cat.filter (dbPass q f)).take (min (min rawLim 50 * 3) 100) := by
  have hout := searchRank_ok_elim i q f rawLim cat fl out h2 h3
  subst hout
  unfold mkSearchOut
  refine ⟨rfl, ?_, rfl⟩
  intro he
  simp [he]

/-- C9 witness: instantiated on the singleton catalog, where the lone row
survives every stage. -/
theorem C9_truncation_and_total_witness :
    (SearchOut.mk (RecOut.fromCatalog [(gAAAA, 0)]) 1).total_results =
      [((gAAAA, (0 : ℚ)))].length ∧
    ((([((gAAAA, (0 : ℚ)))]).take (min 10 50)).isEmpty = false →
      (SearchOut.mk (RecOut.fromCatalog [(gAAAA, 0)]) 1).recs =
        RecOut.fromCatalog (([((gAAAA, (0 : ℚ)))]).take (min 10 50))) ∧
    searchDb "zz" f0 10 [gAAAA] =
      ([gAAAA].filter (dbPass "zz" f0)).take (min (min 10 50 * 3) 100) :=
  C9_truncation_and_total (processQueryDegraded siaZero "zz") "zz" f0 10
    [gAAAA] [(gAAAA, 0)] (SearchOut.mk (RecOut.fromCatalog [(gAAAA, 0)]) 1)
    (by decide) (by decide)
